import Mathlib

/-!
Verification development for the gh-contribution-histogram-action repository.

The Python sources are shallowly embedded as executable Lean definitions:

* `generate_contribution_histogram_merge` — the pandas groupby / outer-merge /
  fillna / sort pipeline of `generate_contribution_histogram`
  (src/gh-contribution-graph-generator.py, lines 128-145);
* `fetch_prs_with_cursor` — the cursor pagination loop (lines 57-79);
* `orchestrate` — the per-target loop of `__main__` (lines 255-264);
* `parse_targets` — src/target_parser.py;
* `get_themes` block parsing and cache write — src/themes.py;
* `get_month_year` — timestamp normalization (lines 49-55), together with a
  model of CPython `strptime` restricted to the two format strings the code
  uses.

Python strings are modelled as `List Char`; machine-level details (file
handles, HTTP) are abstracted into explicit inputs (a scripted server, the
fetched text) exactly where the code receives them from its libraries.
-/

/-- Python strings are modelled as lists of characters. -/
abbrev Str := List Char

deriving instance DecidableEq for Except

/- ## Time-series aggregator (src/gh-contribution-graph-generator.py 128-145)

A month key `YYYY-MM` is encoded as a natural number, order-isomorphically to
calendar order (`pd.to_datetime` followed by `sort_values` orders `YYYY-MM`
keys exactly as the numeric encoding `year * 100 + month` does, and the
pipeline uses the key only for equality and ordering).  `groupby("month").size`
produces one row per distinct key carrying its multiplicity;
`pd.merge(..., on="month", how="outer").fillna(0)` produces one row per key in
the union of the two key sets, with a missing side's count filled with zero;
`sort_values("month")` sorts ascending. -/
abbrev Month := Nat

/-- Embedding of the counting / merging / sorting pipeline of
`generate_contribution_histogram`: from the two lists of month keys
(`authored_dates`, `reviewed_dates`) to the sorted merged rows
`(month, authored_count, reviewed_count)`. -/
def generate_contribution_histogram_merge (authored reviewed : List Month) :
    List (Month × Nat × Nat) :=
  (List.insertionSort (· ≤ ·) (authored ++ reviewed).dedup).map
    (fun m => (m, authored.count m, reviewed.count m))

/- ## Paginated query engine (src/gh-contribution-graph-generator.py 57-79)

The GraphQL transport is modelled as a scripted server: the response to the
`i`-th request issued by the loop.  A response is either a transport or
GraphQL-level failure (non-200 status at line 45-46, or an `errors` payload at
line 67-68) or a page carrying the `edges` records and the `pageInfo` flags. -/

/-- One record returned by the search query (the loop only stores the nodes). -/
abbrev Rec := Nat

/-- A successful page of the search response. -/
structure Page where
  edges : List Rec
  hasNextPage : Bool
  endCursor : Option Str
deriving DecidableEq

/-- Failures raised inside the loop body before records are appended. -/
inductive FetchErr where
  /-- `run_graphql_query` raised on a non-200 status (line 45-46). -/
  | transport (status : Nat)
  /-- the response carried an `errors` payload (line 67-68). -/
  | graphql
deriving DecidableEq

/-- The server's response to one request. -/
inductive Response where
  | fail (e : FetchErr)
  | page (p : Page)
deriving DecidableEq

/-- Outcome of the fetch loop: the accumulated records or the raised error,
together with the number of requests that were issued. -/
inductive FetchOutcome where
  | ok (recs : List Rec) (requests : Nat)
  | err (e : FetchErr) (requests : Nat)
deriving DecidableEq

/-- Step-indexed embedding of the `while has_next_page` loop of
`fetch_prs_with_cursor`: `i` is the number of requests already issued, `acc`
the accumulated `prs`.  Each iteration issues one request, raises on an error
response, otherwise appends the page's edges and continues exactly when
`hasNextPage` is true.  `none` means the loop is still running after `fuel`
further iterations — the code has no page cap, so the fuel is an observation
bound of the model, not a bound in the code. -/
def fetchStep (server : Nat → Response) : Nat → Nat → List Rec → Option FetchOutcome
  | 0, _, _ => none
  | fuel + 1, i, acc =>
    match server i with
    | Response.fail e => some (FetchOutcome.err e (i + 1))
    | Response.page p =>
      if p.hasNextPage then fetchStep server fuel (i + 1) (acc ++ p.edges)
      else some (FetchOutcome.ok (acc ++ p.edges) (i + 1))

/-- Embedding of `fetch_prs_with_cursor` run against a scripted server,
observed for `fuel` iterations: `prs = []`, `has_next_page = True` initially,
so the first iteration always issues a request. -/
def fetch_prs_with_cursor (server : Nat → Response) (fuel : Nat) : Option FetchOutcome :=
  fetchStep server fuel 0 []

/-- A server script that answers every request with an empty page whose
`hasNextPage` flag is true. -/
def alwaysMoreServer : Nat → Response :=
  fun _ => Response.page ⟨[], true, none⟩

/-- The fetch loop never finishes against the given server: for every
observation bound the loop is still running. -/
def loopsForever (server : Nat → Response) : Prop :=
  ∀ fuel, fetch_prs_with_cursor server fuel = none

/-- A finite server script: request `i` is answered with the `i`-th scripted
response (the hypotheses of the theorems keep the loop inside the script). -/
def scriptServer (pages : List Response) (i : Nat) : Response :=
  pages.getD i (Response.fail FetchErr.graphql)

/- ## Orchestrator (src/gh-contribution-graph-generator.py 255-264)

`__main__` iterates the parsed targets; per target it calls
`generate_contribution_histogram` in a `try`, and in the `except` it prints an
error naming the target and calls `sys.exit(1)`.  Falling off the end of the
script exits with status 0.  The per-target work is abstracted as a function
from the target to `Except` (the body either returns or raises). -/

/-- A parsed target triple `(username, repo_owner, repo_name)`. -/
abbrev Target := Str × Str × Str

/-- What one run of the orchestrator loop produced: the targets that were
attempted in order, the reported per-target errors, and the process exit
status. -/
structure OrchOutcome where
  attempted : List Target
  reports : List (Target × Str)
  exitCode : Nat
deriving DecidableEq

/-- Embedding of the `for target in parsed_targets` loop: on success the loop
continues with the next target; on an exception the error is reported with the
target attached and the process exits with status 1 at once. -/
def orchestrate (run : Target → Except Str Unit) : List Target → OrchOutcome
  | [] => ⟨[], [], 0⟩
  | t :: ts =>
    match run t with
    | Except.ok _ =>
      let rest := orchestrate run ts
      ⟨t :: rest.attempted, rest.reports, rest.exitCode⟩
    | Except.error e => ⟨[t], [(t, e)], 1⟩

/- ## Target specification parser (src/target_parser.py)

Python string primitives used by `parse_targets`, modelled on `List Char`.
`str.strip()` with no arguments removes leading and trailing whitespace;
`str.split()` with no arguments splits on whitespace runs and drops empty
pieces; `str.replace(",", " ")` maps every comma to a space;
`str.split(sep)` for a one-character separator keeps empty pieces. -/

/-- Python `str.strip()` (no arguments): drop whitespace from both ends. -/
def pyStrip (s : Str) : Str :=
  ((s.dropWhile Char.isWhitespace).reverse.dropWhile Char.isWhitespace).reverse

/-- Python `str.replace(",", " ")`: both arguments are single characters, so
the replacement is a character map. -/
def pyReplaceCommaSpace (s : Str) : Str :=
  s.map (fun c => if c = ',' then ' ' else c)

/-- Python `str.split()` with no arguments: split on whitespace, dropping
empty pieces. -/
def pySplitWhitespace (s : Str) : List Str :=
  (s.splitOnP (fun c => c.isWhitespace)).filter (fun t => ¬ t.isEmpty)

/-- The list comprehension of src/target_parser.py line 21:
`[t.strip() for t in targets.replace(',', ' ').split() if t.strip()]`. -/
def targetArr (targets : Str) : List Str :=
  (pySplitWhitespace (pyReplaceCommaSpace targets)).filterMap
    (fun t => let t := pyStrip t; if t.isEmpty then none else some t)

/-- The `ValueError` values `parse_targets` can raise, by message shape:
`emptyInput` is "Empty targets string" (line 18); `invalidRepoFormat s` is
"Invalid repository format: s" (lines 26, 35, 38); `invalidTargetFormat s` is
"Invalid target format: s" (line 30); `unpackMismatch` is a tuple-unpacking
`ValueError`; `wrapped t e` is the re-raise of line 45,
"Error parsing target t: e. Expected format: username at owner/repo". -/
inductive TargetError where
  | emptyInput
  | invalidRepoFormat (s : Str)
  | invalidTargetFormat (s : Str)
  | unpackMismatch
  | wrapped (target : Str) (e : TargetError)
deriving DecidableEq

/-- Body of the outer `try` of `parse_targets` (src/target_parser.py lines
28-41): split the descriptor on the delimiter, check the two pieces are
non-empty, split the repo piece on `/` with the inner `try`/`except` of lines
32-39 turning a tuple-unpack `ValueError` (zero or more than one `/`) into
"Invalid repository format" — an explicit "Invalid repository format" raised
at line 35 is re-raised unchanged by line 39, so both routes yield
`invalidRepoFormat repo`.  `target.split("@")` returns exactly two pieces
whenever `target.count("@") == 1`, so the fallthrough `unpackMismatch` branch
is unreachable under the caller's count guard. -/
def parseOneTargetInner (target : Str) : Except TargetError Target :=
  match target.splitOn '@' with
  | [username, repo] =>
    if username.isEmpty ∨ repo.isEmpty then
      Except.error (TargetError.invalidTargetFormat target)
    else
      match repo.splitOn '/' with
      | [repo_owner, repo_name] =>
        if repo_owner.isEmpty ∨ repo_name.isEmpty then
          Except.error (TargetError.invalidRepoFormat repo)
        else Except.ok (username, repo_owner, repo_name)
      | _ => Except.error (TargetError.invalidRepoFormat repo)
  | _ => Except.error TargetError.unpackMismatch

/-- One iteration of the `for target in target_arr` loop (src/target_parser.py
lines 24-45): the count guard of line 25, then the `try` body, with the
`except` of lines 42-45 re-raising errors whose message contains
"Invalid repository format" and wrapping every other `ValueError` into the
"Error parsing target ... Expected format" message. -/
def parseOneTarget (target : Str) : Except TargetError Target :=
  if target.count '@' ≠ 1 then Except.error (TargetError.invalidRepoFormat target)
  else
    match parseOneTargetInner target with
    | Except.ok v => Except.ok v
    | Except.error (TargetError.invalidRepoFormat s) =>
      Except.error (TargetError.invalidRepoFormat s)
    | Except.error e => Except.error (TargetError.wrapped target e)

/-- The accumulation loop of `parse_targets`: the first raised error aborts
the whole parse. -/
def parseTargetsLoop : List Str → Except TargetError (List Target)
  | [] => Except.ok []
  | t :: ts =>
    match parseOneTarget t with
    | Except.error e => Except.error e
    | Except.ok v =>
      match parseTargetsLoop ts with
      | Except.error e => Except.error e
      | Except.ok vs => Except.ok (v :: vs)

/-- Embedding of `parse_targets` (src/target_parser.py lines 17-47): the
emptiness guard of line 17 (`not targets or not targets.strip()`), then the
per-descriptor loop. -/
def parse_targets (targets : Str) : Except TargetError (List Target) :=
  if targets.isEmpty ∨ (pyStrip targets).isEmpty then Except.error TargetError.emptyInput
  else parseTargetsLoop (targetArr targets)

/-- A descriptor the specification calls malformed: delimiter count different
from one, empty username or repo portion, repo portion not splitting into
exactly two segments on `/`, or an empty owner or repo-name segment. -/
def isBadDescriptor (t : Str) : Bool :=
  if t.count '@' ≠ 1 then true
  else
    match t.splitOn '@' with
    | [u, r] =>
      u.isEmpty || r.isEmpty ||
        (match r.splitOn '/' with
         | [ro, rn] => ro.isEmpty || rn.isEmpty
         | _ => true)
    | _ => true

/-- Errors that identify a target-format problem (as opposed to the empty
input error or a bare tuple-unpack error): the "Invalid repository format" and
"Invalid target format" messages, and the wrapper message of line 45, which
names the offending target and states the expected format. -/
def isTargetFormatError : TargetError → Bool
  | TargetError.invalidRepoFormat _ => true
  | TargetError.invalidTargetFormat _ => true
  | TargetError.wrapped _ _ => true
  | _ => false

/- ## Theme resolver (src/themes.py)

The remote-parse path of `get_themes` receives the text between the anchors
`themes = \x7b` and `\x7d;` of the fetched file (line 60) and parses it by
string splitting (lines 63-113); the cache write (lines 115-118) serializes
each `Theme` by calling its `_asdict` method. -/

/-- The single-quote character. -/
def squote : Char := Char.ofNat 39

/-- The double-quote character. -/
def dquote : Char := '"'

/-- The opening-brace character. -/
def lbrace : Char := Char.ofNat 123

/-- Python `str.strip(chars)`: drop characters of the given set from both
ends. -/
def pyStripChars (chars : List Char) (s : Str) : Str :=
  ((s.dropWhile (fun c => c ∈ chars)).reverse.dropWhile (fun c => c ∈ chars)).reverse

/-- Python `str.lstrip(chars)`: drop characters of the given set from the
front. -/
def pyLstripChars (chars : List Char) (s : Str) : Str :=
  s.dropWhile (fun c => c ∈ chars)

/-- Python's `"//" in s`: the string contains two consecutive slashes. -/
def hasSlashSlash : Str → Bool
  | '/' :: '/' :: _ => true
  | _ :: rest => hasSlashSlash rest
  | [] => false

/-- Python `s.split(sep, 1)` when the separator is one character: split at the
first occurrence only; `none` when the separator is absent (so the Python
call returns a single-element list). -/
def splitOnFirst (sep : Char) : Str → Option (Str × Str)
  | [] => none
  | c :: rest =>
    if c = sep then some ([], rest)
    else (splitOnFirst sep rest).map (fun p => (c :: p.1, p.2))

/-- Python `s.split("//")[0]`: the prefix before the first two consecutive
slashes (the whole string when there are none). -/
def takeUntilSlashSlash : Str → Str
  | '/' :: '/' :: _ => []
  | c :: rest => c :: takeUntilSlashSlash rest
  | [] => []

/-- One iteration of the attribute loop of `get_themes` (src/themes.py lines
81-97): strip the line; skip it when it is empty or contains `//` (line 83);
split at the first colon, skipping lines without one (lines 86-88); strip
whitespace and quotes from the key, strip whitespace, quotes and commas from
the value (lines 90-91); the inline-comment truncation of lines 94-95 is kept
although line 83 already skipped every line containing `//`; prefix the value
with `#` (line 97). -/
def parseAttrLine (rawLine : Str) : Option (Str × Str) :=
  let line := pyStrip rawLine
  if line.isEmpty || hasSlashSlash line then none
  else
    match splitOnFirst ':' line with
    | none => none
    | some (k, v) =>
      let key := pyStripChars [dquote, squote] (pyStrip k)
      let value := pyStripChars [dquote, squote, ','] (pyStrip v)
      let value :=
        if hasSlashSlash value then
          pyStripChars [dquote, squote, ','] (pyStrip (takeUntilSlashSlash value))
        else value
      some (key, '#' :: value)

/-- The attribute dictionary built from the lines of a block's data part:
assignments in iteration order (a later assignment to the same key wins on
lookup). -/
def parseAttrLines (lines : List Str) : List (Str × Str) :=
  lines.filterMap parseAttrLine

/-- Python `attrs.get(key)` on the dictionary: the value of the last
assignment to the key, if any. -/
def pyDictGet (attrs : List (Str × Str)) (key : Str) : Option Str :=
  attrs.reverse.lookup key

/-- Name and attribute extraction for one theme block (src/themes.py lines
67-97): skip blank blocks (line 68), split at the first colon into name part
and data part, skipping blocks without one (lines 72-74), strip whitespace and
quotes from the name (line 76), strip whitespace and a leading brace from the
data (line 77), then split the data on commas and run the attribute loop. -/
def themeBlockAttrs (block : Str) : Option (Str × List (Str × Str)) :=
  if (pyStrip block).isEmpty then none
  else
    match splitOnFirst ':' (pyStrip block) with
    | none => none
    | some (namePart, dataPart) =>
      let theme_name := pyStripChars [dquote, squote] (pyStrip namePart)
      let theme_data := pyStrip (pyLstripChars [lbrace] (pyStrip dataPart))
      some (theme_name, parseAttrLines (theme_data.splitOn ','))

/-- The palette record of src/themes.py lines 12-39 (a plain class whose
`__init__` assigns the six fields). -/
structure Theme where
  title_color : Str
  icon_color : Str
  text_color : Str
  bg_color : Str
  background_color : Str
  border_color : Option Str
deriving DecidableEq

/-- The `Theme` construction of src/themes.py lines 102-110: the four color
fields default to the empty string when their key is absent,
`background_color` is set from the same `bg_color` local, and `border_color`
is `attrs.get("border_color")`, hence `None` when the key is absent. -/
def themeFromAttrs (attrs : List (Str × Str)) : Theme :=
  let bg_color := (pyDictGet attrs ("bg_color".toList)).getD []
  { title_color := (pyDictGet attrs ("title_color".toList)).getD []
    icon_color := (pyDictGet attrs ("icon_color".toList)).getD []
    text_color := (pyDictGet attrs ("text_color".toList)).getD []
    bg_color := bg_color
    background_color := bg_color
    border_color := pyDictGet attrs ("border_color".toList) }

/-- One iteration of the block loop of `get_themes` (src/themes.py lines
67-113): `none` when the block is skipped by a `continue`, otherwise the
parsed name and the constructed `Theme`.  The `try` of lines 100-112 cannot
raise — the constructor only assigns attributes — so the `except` of line 112
is not taken. -/
def parseThemeBlock (block : Str) : Option (Str × Theme) :=
  (themeBlockAttrs block).map (fun na => (na.1, themeFromAttrs na.2))

/-- Python `s.split(sep)` for a non-empty multi-character separator, with the
remaining length as fuel (the separator match consumes at least one
character, so fuel equal to the initial length is never exhausted). -/
def pySplitSeqAux (sep : Str) : Nat → Str → Str → List Str
  | 0, s, acc => [acc.reverse ++ s]
  | fuel + 1, s, acc =>
    match s with
    | [] => [acc.reverse]
    | c :: rest =>
      if sep.isPrefixOf (c :: rest) then
        acc.reverse :: pySplitSeqAux sep fuel ((c :: rest).drop sep.length) []
      else pySplitSeqAux sep fuel rest (c :: acc)

/-- Python `s.split(sep)` for a non-empty separator string. -/
def pySplitSeq (sep : Str) (s : Str) : List Str :=
  pySplitSeqAux sep s.length s []

/-- The block list of src/themes.py line 66: `themes_text.split("\x7d,")`. -/
def themeBlocks (themes_text : Str) : List Str :=
  pySplitSeq [Char.ofNat 125, ','] themes_text

/-- The `result` dictionary built by the block loop of `get_themes`, as its
insertion sequence (line 111 assigns `result[theme_name] = theme_obj`). -/
def getThemesResult (themes_text : Str) : List (Str × Theme) :=
  (themeBlocks themes_text).filterMap parseThemeBlock

/-- Serialization of one `Theme` for the cache write of src/themes.py line
117, which evaluates `v._asdict()`.  The class `Theme` (lines 12-39) defines
only the six annotated fields and `__init__` — there is no `_asdict` method
anywhere in the repository — so the attribute lookup raises
`AttributeError: 'Theme' object has no attribute '_asdict'`. -/
def theme_asdict (_t : Theme) : Except Str (List (Str × Str)) :=
  Except.error ("AttributeError: _asdict".toList)

/-- The dictionary comprehension of src/themes.py line 117: serialize every
parsed theme, propagating the first raised error. -/
def cacheDumpLoop : List (Str × Theme) → Except Str (List (Str × List (Str × Str)))
  | [] => Except.ok []
  | (k, v) :: rest =>
    match theme_asdict v with
    | Except.error e => Except.error e
    | Except.ok d => (cacheDumpLoop rest).map (fun ds => (k, d) :: ds)

/-- The remote-fetch path of `get_themes` after a successful fetch
(src/themes.py lines 60-121): parse the anchored text into the result
dictionary, then write the cache (line 117) before returning the result.  An
exception raised by the cache write propagates out of `get_themes`. -/
def get_themes_remote (themes_text : Str) : Except Str (List (Str × Theme)) :=
  let result := getThemesResult themes_text
  match cacheDumpLoop result with
  | Except.error e => Except.error e
  | Except.ok _ => Except.ok result

/- ## Timestamp normalization (src/gh-contribution-graph-generator.py 49-55)

`get_month_year` branches on `"+" in date_str`: the `%z`-suffixed format
`"%Y-%m-%dT%H:%M:%S%z"` is used when the string contains a plus sign, the
literal format `"%Y-%m-%dT%H:%M:%SZ"` otherwise.  CPython `strptime` compiles
a format into a case-insensitive regex — `%Y` is exactly four digits, `%m`
`%d` `%H` `%M` `%S` are one or two digits within the field's range, a literal
letter matches either case — requires the whole string to be consumed, and
then builds the `datetime`, which additionally requires the year to be at
least 1, the seconds at most 59, and the day to exist in the month, and for
`%z` requires the offset to be strictly less than 24 hours.  Each numeric
field here is followed by a non-digit in the format, so the regex consumes the
maximal digit run at the field's position and matches exactly when that run
has an admissible length and value.  The `%z` model covers the offset shapes
`Z`, `±HH:MM`, `±HHMM`, `±HH:MM:SS` and `±HHMMSS`; CPython also accepts mixed
colon placements and fractional seconds, which no theorem below touches.
`strftime("%Y-%m")` prints the stored year (unpadded below four digits on
glibc) and the zero-padded month; `%z` parsing stores the offset in `tzinfo`
without shifting the stored fields. -/

/-- Value of a decimal digit character. -/
def digitVal? (c : Char) : Option Nat :=
  if c.isDigit then some (c.toNat - 48) else none

/-- Maximal digit run at the front of the string: its digit values and the
rest of the string. -/
def splitDigits : Str → List Nat × Str
  | [] => ([], [])
  | c :: cs =>
    match digitVal? c with
    | some d => let p := splitDigits cs; (d :: p.1, p.2)
    | none => ([], c :: cs)

/-- Number denoted by a list of digit values. -/
def digitsVal (ds : List Nat) : Nat :=
  ds.foldl (fun a d => 10 * a + d) 0

/-- One numeric field of the compiled `strptime` regex, in a position followed
by a non-digit: the maximal digit run must have a length between `minLen` and
`maxLen` and a value between `lo` and `hi`. -/
def parseNumField (minLen maxLen lo hi : Nat) (s : Str) : Option (Nat × Str) :=
  let p := splitDigits s
  if minLen ≤ p.1.length ∧ p.1.length ≤ maxLen ∧ lo ≤ digitsVal p.1 ∧ digitsVal p.1 ≤ hi
  then some (digitsVal p.1, p.2) else none

/-- A literal character of the format (the non-letter separators). -/
def parseLitChar (c : Char) : Str → Option Str
  | [] => none
  | x :: rest => if x = c then some rest else none

/-- A literal letter of the format, matched case-insensitively. -/
def parseLitCharCI (a b : Char) : Str → Option Str
  | [] => none
  | x :: rest => if x = a ∨ x = b then some rest else none

/-- The fields `strptime` hands to the `datetime` constructor. -/
structure PyDatetime where
  year : Nat
  month : Nat
  day : Nat
  hour : Nat
  minute : Nat
  second : Nat
deriving DecidableEq

/-- Gregorian leap-year rule used by `datetime`. -/
def isLeapYear (y : Nat) : Bool :=
  decide ((y % 4 = 0 ∧ ¬ y % 100 = 0) ∨ y % 400 = 0)

/-- Number of days of a month. -/
def daysInMonth (y m : Nat) : Nat :=
  if m = 2 then (if isLeapYear y then 29 else 28)
  else if m = 4 ∨ m = 6 ∨ m = 9 ∨ m = 11 then 30 else 31

/-- The range checks of the `datetime` constructor not already imposed by the
regex: year at least `MINYEAR = 1`, seconds at most 59 (the regex admits the
leap seconds 60 and 61, the constructor does not), and a day that exists in
the month. -/
def datetimeValid (dt : PyDatetime) : Bool :=
  decide (1 ≤ dt.year ∧ dt.second ≤ 59 ∧ 1 ≤ dt.day ∧ dt.day ≤ daysInMonth dt.year dt.month)

/-- The shared prefix `"%Y-%m-%dT%H:%M:%S"` of both formats. -/
def parseDateCore (s : Str) : Option (PyDatetime × Str) :=
  match parseNumField 4 4 0 9999 s with
  | none => none
  | some (y, s1) =>
    match parseLitChar '-' s1 with
    | none => none
    | some s2 =>
      match parseNumField 1 2 1 12 s2 with
      | none => none
      | some (mo, s3) =>
        match parseLitChar '-' s3 with
        | none => none
        | some s4 =>
          match parseNumField 1 2 1 31 s4 with
          | none => none
          | some (d, s5) =>
            match parseLitCharCI 'T' 't' s5 with
            | none => none
            | some s6 =>
              match parseNumField 1 2 0 23 s6 with
              | none => none
              | some (h, s7) =>
                match parseLitChar ':' s7 with
                | none => none
                | some s8 =>
                  match parseNumField 1 2 0 59 s8 with
                  | none => none
                  | some (mi, s9) =>
                    match parseLitChar ':' s9 with
                    | none => none
                    | some s10 =>
                      match parseNumField 1 2 0 61 s10 with
                      | none => none
                      | some (sec, s11) => some (⟨y, mo, d, h, mi, sec⟩, s11)

/-- Magnitude in seconds of a `%z` offset after its sign, requiring the whole
rest of the string to be consumed: the shapes `HH:MM`, `HH:MM:SS`, `HHMM` and
`HHMMSS`. -/
def parseOffsetSeconds (tail : Str) : Option Nat :=
  match splitDigits tail with
  | ([h1, h2], ':' :: rest2) =>
    match splitDigits rest2 with
    | ([m1, m2], []) =>
      if m1 ≤ 5 then some ((10 * h1 + h2) * 3600 + (10 * m1 + m2) * 60) else none
    | ([m1, m2], ':' :: rest3) =>
      match splitDigits rest3 with
      | ([s1, s2], []) =>
        if m1 ≤ 5 ∧ s1 ≤ 5 then
          some ((10 * h1 + h2) * 3600 + (10 * m1 + m2) * 60 + (10 * s1 + s2))
        else none
      | _ => none
    | _ => none
  | ([h1, h2, m1, m2], []) =>
    if m1 ≤ 5 then some ((10 * h1 + h2) * 3600 + (10 * m1 + m2) * 60) else none
  | ([h1, h2, m1, m2, s1, s2], []) =>
    if m1 ≤ 5 ∧ s1 ≤ 5 then
      some ((10 * h1 + h2) * 3600 + (10 * m1 + m2) * 60 + (10 * s1 + s2))
    else none
  | _ => none

/-- CPython `strptime` with format `"%Y-%m-%dT%H:%M:%SZ"`: the final `Z`
matches either case, nothing may remain, and the constructor checks apply. -/
def strptimeZ (s : Str) : Option PyDatetime :=
  match parseDateCore s with
  | none => none
  | some (dt, rest) =>
    match parseLitCharCI 'Z' 'z' rest with
    | some [] => if datetimeValid dt then some dt else none
    | _ => none

/-- CPython `strptime` with format `"%Y-%m-%dT%H:%M:%S%z"`: the `%z` field is
a case-sensitive `Z` or a signed offset strictly below 24 hours; the stored
fields are not shifted by the offset. -/
def strptimePlus (s : Str) : Option PyDatetime :=
  match parseDateCore s with
  | none => none
  | some (dt, rest) =>
    if ¬ datetimeValid dt then none
    else
      match rest with
      | ['Z'] => some dt
      | c :: tail =>
        if c = '+' ∨ c = '-' then
          match parseOffsetSeconds tail with
          | some off => if off < 86400 then some dt else none
          | none => none
        else none
      | [] => none

/-- Decimal digit string of a number (no padding), as glibc `strftime` prints
`%Y`. -/
def natDecimalDigits (n : Nat) : Str :=
  if _h : n < 10 then [Nat.digitChar n]
  else natDecimalDigits (n / 10) ++ [Nat.digitChar (n % 10)]
termination_by n
decreasing_by exact Nat.div_lt_self (by omega) (by omega)

/-- Two-digit zero-padded decimal string of a number below 100, as `strftime`
prints `%m`. -/
def pad2digits (n : Nat) : Str :=
  [Nat.digitChar (n / 10), Nat.digitChar (n % 10)]

/-- Python `date.strftime("%Y-%m")` (line 55): unpadded year, dash, two-digit
month. -/
def pyStrftimeYm (dt : PyDatetime) : Str :=
  natDecimalDigits dt.year ++ '-' :: pad2digits dt.month

/-- Embedding of `get_month_year` (src/gh-contribution-graph-generator.py
lines 49-55): choose the `%z` format exactly when the string contains a plus
sign, parse, and print the `YYYY-MM` key; `none` is the raised
`ValueError`. -/
def get_month_year (date_str : Str) : Option Str :=
  if '+' ∈ date_str then (strptimePlus date_str).map pyStrftimeYm
  else (strptimeZ date_str).map pyStrftimeYm

/-- Four-digit zero-padded decimal string of a number below 10000: the `YYYY`
field of the ISO timestamp forms named by the specification. -/
def pad4digits (n : Nat) : Str :=
  [Nat.digitChar (n / 1000), Nat.digitChar (n / 100 % 10),
   Nat.digitChar (n / 10 % 10), Nat.digitChar (n % 10)]

/-- The shape `YYYY-MM-DDTHH:MM:SS` rendered from numeric components. -/
def renderTimestampCore (y mo d h mi s : Nat) : Str :=
  pad4digits y ++ '-' :: (pad2digits mo ++ '-' :: (pad2digits d ++
    'T' :: (pad2digits h ++ ':' :: (pad2digits mi ++ ':' :: pad2digits s))))

/-- The `Z`-suffixed ISO form `YYYY-MM-DDTHH:MM:SSZ`. -/
def renderZ (y mo d h mi s : Nat) : Str :=
  renderTimestampCore y mo d h mi s ++ ['Z']

/-- The offset-suffixed ISO form `YYYY-MM-DDTHH:MM:SS±HH:MM` with the given
sign character. -/
def renderOffset (y mo d h mi s : Nat) (sign : Char) (oh om : Nat) : Str :=
  renderTimestampCore y mo d h mi s ++ sign :: (pad2digits oh ++ ':' :: pad2digits om)

/- ## Helper lemmas about the merged series -/

/-- The key column of the merged series is the sorted deduplication of the
concatenated inputs. -/
theorem merged_fst (a r : List Month) :
    (generate_contribution_histogram_merge a r).map Prod.fst =
      List.insertionSort (· ≤ ·) (a ++ r).dedup := by
  unfold generate_contribution_histogram_merge
  rw [List.map_map]
  exact List.map_id _

/-- The sorted deduplication underlying the merged series is a permutation of
the deduplication. -/
theorem merged_keys_perm (a r : List Month) :
    (List.insertionSort (· ≤ ·) (a ++ r).dedup).Perm (a ++ r).dedup :=
  List.perm_insertionSort _ _

/-- Claim C3 counterexample: the merged series of authored months
2024-01, 2024-03 (one record each) and reviewed month 2024-02 (one record) is
not the sequence with counts (1,0), (0,1), (0,1) stated by the claim — the
month 2024-03 is an authored month, so its row carries counts (1,0). -/
theorem C3_counterexample :
    generate_contribution_histogram_merge [202401, 202403] [202402] ≠
      [(202401, 1, 0), (202402, 0, 1), (202403, 0, 1)] := by
  decide

/-- Claim C3 (amended): the merged series contains exactly one entry per
month in the union of the two key sets, in ascending order, with the missing
side's count defaulted to zero: its length is the cardinality of the union,
its keys are strictly increasing and are exactly the months present in either
source, each row carries the per-source multiplicities (zero for a missing
side), and the example of authored {2024-01, 2024-03} and reviewed {2024-02}
with one record per populated month yields exactly the three entries
2024-01, 2024-02, 2024-03 with counts (1,0), (0,1), (1,0). -/
theorem C3_merged_series (a r : List Month) :
    (generate_contribution_histogram_merge a r).length = (a.toFinset ∪ r.toFinset).card ∧
    ((generate_contribution_histogram_merge a r).map Prod.fst).Sorted (· < ·) ∧
    (∀ m, m ∈ (generate_contribution_histogram_merge a r).map Prod.fst ↔ (m ∈ a ∨ m ∈ r)) ∧
    (∀ p ∈ generate_contribution_histogram_merge a r,
        p.2.1 = a.count p.1 ∧ p.2.2 = r.count p.1 ∧
        (p.1 ∉ a → p.2.1 = 0) ∧ (p.1 ∉ r → p.2.2 = 0)) ∧
    generate_contribution_histogram_merge [202401, 202403] [202402] =
      [(202401, 1, 0), (202402, 0, 1), (202403, 1, 0)] := by
  refine ⟨?_, ?_, ?_, ?_, by decide⟩
  · rw [← List.length_map _ Prod.fst, merged_fst, (merged_keys_perm a r).length_eq,
      ← List.toFinset_append, List.card_toFinset]
  · rw [merged_fst]
    exact List.Sorted.lt_of_le (List.sorted_insertionSort _ _)
      ((merged_keys_perm a r).nodup_iff.mpr (List.nodup_dedup _))
  · intro m
    rw [merged_fst, (merged_keys_perm a r).mem_iff, List.mem_dedup, List.mem_append]
  · intro p hp
    rcases List.mem_map.mp hp with ⟨m, _, rfl⟩
    exact ⟨rfl, rfl, fun hm => List.count_eq_zero.mpr hm, fun hm => List.count_eq_zero.mpr hm⟩

/-- Witness for C3: the amended theorem instantiated at the claim's example
lists. -/
theorem C3_merged_series_witness :
    generate_contribution_histogram_merge [202401, 202403] [202402] =
      [(202401, 1, 0), (202402, 0, 1), (202403, 1, 0)] :=
  (C3_merged_series [202401, 202403] [202402]).2.2.2.2

/-- Claim C6 (confirmed): aggregation is insensitive to input order —
aggregating any permutations of the raw authored and reviewed month lists
yields a merged series identical in months, ordering and both counts. -/
theorem C6_order_insensitive (a a' r r' : List Month)
    (ha : a'.Perm a) (hr : r'.Perm r) :
    generate_contribution_histogram_merge a' r' = generate_contribution_histogram_merge a r := by
  unfold generate_contribution_histogram_merge
  have hkeys : List.insertionSort (· ≤ ·) (a' ++ r').dedup =
      List.insertionSort (· ≤ ·) (a ++ r).dedup := by
    exact List.eq_of_perm_of_sorted
      (((List.perm_insertionSort _ _).trans ((ha.append hr).dedup)).trans
        (List.perm_insertionSort _ _).symm)
      (List.sorted_insertionSort _ _) (List.sorted_insertionSort _ _)
  rw [hkeys]
  exact List.map_congr_left (fun m _ => by rw [ha.count_eq, hr.count_eq])

/-- Witness for C6: shuffling the example inputs leaves the merged series
unchanged. -/
theorem C6_order_insensitive_witness :
    generate_contribution_histogram_merge [202403, 202401] [202402] =
      generate_contribution_histogram_merge [202401, 202403] [202402] :=
  C6_order_insensitive [202401, 202403] [202403, 202401] [202402] [202402]
    (by decide) (by decide)


/- ## Pagination theorems -/

/-- Element lookup with default just past a prefix of known length. -/
theorem getD_append_self (l : List Response) (x : Response) (rest : List Response)
    (d : Response) : (l ++ x :: rest).getD l.length d = x := by
  induction l with
  | nil => rfl
  | cons a l ih => simpa [List.getD_cons_succ] using ih

/-- The scripted server answers request number `pre.length` with the response
listed right after the prefix `pre`. -/
theorem scriptServer_at (pre : List Response) (x : Response) (rest : List Response) :
    scriptServer (pre ++ x :: rest) pre.length = x :=
  getD_append_self pre x rest _

/-- Run of the fetch loop over a scripted sequence of pages whose flags are
true except on the last: starting after any request prefix and with any
accumulator, the loop consumes exactly the scripted pages and returns the
accumulated records after one request per page. -/
theorem fetchStep_script (last : Page) (hlast : last.hasNextPage = false) :
    ∀ (init : List Page) (pre : List Response) (acc : List Rec),
    (∀ p ∈ init, p.hasNextPage = true) →
    fetchStep (scriptServer (pre ++ (init.map Response.page ++ [Response.page last])))
        (init.length + 1) pre.length acc =
      some (FetchOutcome.ok (acc ++ ((init.map Page.edges).flatten ++ last.edges))
        (pre.length + init.length + 1)) := by
  intro init
  induction init with
  | nil =>
    intro pre acc _
    have hsrv := scriptServer_at pre (Response.page last) []
    simp [fetchStep, hsrv, hlast]
  | cons p init ih =>
    intro pre acc hflags
    have hsrv : scriptServer (pre ++ ((p :: init).map Response.page ++ [Response.page last]))
        pre.length = Response.page p := by
      have := scriptServer_at pre (Response.page p) (init.map Response.page ++ [Response.page last])
      simpa using this
    have hp : p.hasNextPage = true := hflags p (List.mem_cons_self p init)
    have hstep : fetchStep
        (scriptServer (pre ++ ((p :: init).map Response.page ++ [Response.page last])))
        (init.length + 1 + 1) pre.length acc =
        fetchStep (scriptServer (pre ++ ((p :: init).map Response.page ++ [Response.page last])))
          (init.length + 1) (pre.length + 1) (acc ++ p.edges) := by
      rw [fetchStep, hsrv]
      simp [hp]
    have harr : pre ++ ((p :: init).map Response.page ++ [Response.page last]) =
        (pre ++ [Response.page p]) ++ (init.map Response.page ++ [Response.page last]) := by
      simp
    have ih' := ih (pre ++ [Response.page p]) (acc ++ p.edges)
      (fun q hq => hflags q (List.mem_cons_of_mem p hq))
    simp only [List.length_append, List.length_cons, List.length_map, List.length_singleton,
      List.length_nil, Nat.add_zero, Nat.zero_add] at ih' ⊢
    rw [hstep, harr, ih']
    congr 2
    · simp [List.append_assoc]
    · omega

/-- Claim C7 (confirmed): for a scripted server delivering pages whose
has-next-page flag clears exactly on the last page, the fetch loop returns
all records concatenated in server-delivered order after exactly one request
per page, and the total record count equals the sum of the page sizes. -/
theorem C7_pagination (init : List Page) (last : Page)
    (hinit : ∀ p ∈ init, p.hasNextPage = true) (hlast : last.hasNextPage = false) :
    fetch_prs_with_cursor (scriptServer ((init ++ [last]).map Response.page))
        (init ++ [last]).length =
      some (FetchOutcome.ok ((init ++ [last]).map Page.edges).flatten
        (init ++ [last]).length) ∧
    (((init ++ [last]).map Page.edges).flatten).length =
      ((init ++ [last]).map (fun p => p.edges.length)).sum := by
  constructor
  · have h := fetchStep_script last hlast init [] [] hinit
    simpa [fetch_prs_with_cursor, List.map_append] using h
  · rw [List.length_flatten, List.map_map]
    rfl

set_option maxRecDepth 8000 in
/-- Witness for C7: three pages of 100, 100 and 42 records with the flag
cleared on the last yield exactly 242 records after exactly 3 requests. -/
theorem C7_pagination_witness :
    fetch_prs_with_cursor (scriptServer (([⟨List.replicate 100 0, true, none⟩,
        ⟨List.replicate 100 0, true, none⟩,
        ⟨List.replicate 42 0, false, none⟩] : List Page).map Response.page)) 3 =
      some (FetchOutcome.ok (List.replicate 242 0) 3) := by
  have h := (C7_pagination ([⟨List.replicate 100 0, true, none⟩,
    ⟨List.replicate 100 0, true, none⟩] : List Page)
    (⟨List.replicate 42 0, false, none⟩ : Page)
    (by intro p hp; fin_cases hp <;> rfl) rfl).1
  have hjoin : (([⟨List.replicate 100 0, true, none⟩, ⟨List.replicate 100 0, true, none⟩,
      ⟨List.replicate 42 0, false, none⟩] : List Page).map Page.edges).flatten =
      List.replicate 242 (0 : Rec) := by decide
  have hlen : (([⟨List.replicate 100 0, true, none⟩, ⟨List.replicate 100 0, true, none⟩] :
      List Page) ++ ([⟨List.replicate 42 0, false, none⟩] : List Page)).length = 3 := rfl
  rw [hlen] at h
  simpa [hjoin] using h

/-- Against a server that always reports another page the loop is still
running after any number of iterations, whatever the position and
accumulator. -/
theorem fetchStep_alwaysMore : ∀ fuel i acc, fetchStep alwaysMoreServer fuel i acc = none := by
  intro fuel
  induction fuel with
  | zero => intro i acc; rfl
  | succ fuel ih =>
    intro i acc
    have hstep : fetchStep alwaysMoreServer (fuel + 1) i acc =
        fetchStep alwaysMoreServer fuel (i + 1) (acc ++ []) := by
      rw [fetchStep]
      rfl
    rw [hstep, List.append_nil]
    exact ih (i + 1) acc

/-- Claim C4 counterexample: the engine has no hard cap — against a server
that never clears the has-more flag (every response an empty page with the
flag set) the fetch loop runs forever, never producing a result or error. -/
theorem C4_counterexample : loopsForever alwaysMoreServer :=
  fun fuel => fetchStep_alwaysMore fuel 0 []

/-- The loop finishes as soon as a response clears the flag: if the `n`
responses from position `i` are pages with the flag set and the next one is a
page with the flag cleared, the loop returns after exactly `n + 1` further
requests. -/
theorem fetchStep_stops (server : Nat → Response) :
    ∀ (n : Nat) (i : Nat) (acc : List Rec),
    (∀ j, j < n → ∃ p, server (i + j) = Response.page p ∧ p.hasNextPage = true) →
    (∃ p, server (i + n) = Response.page p ∧ p.hasNextPage = false) →
    ∃ recs, fetchStep server (n + 1) i acc = some (FetchOutcome.ok recs (i + n + 1)) := by
  intro n
  induction n with
  | zero =>
    intro i acc _ hstop
    obtain ⟨p, hp, hflag⟩ := hstop
    rw [Nat.add_zero] at hp
    exact ⟨acc ++ p.edges, by simp [fetchStep, hp, hflag]⟩
  | succ n ih =>
    intro i acc hbefore hstop
    obtain ⟨p, hp, hflag⟩ := hbefore 0 (Nat.succ_pos n)
    rw [Nat.add_zero] at hp
    have hbefore' : ∀ j, j < n → ∃ q, server (i + 1 + j) = Response.page q ∧
        q.hasNextPage = true := by
      intro j hj
      have h := hbefore (j + 1) (by omega)
      have harith : i + (j + 1) = i + 1 + j := by omega
      rwa [harith] at h
    have hstop' : ∃ q, server (i + 1 + n) = Response.page q ∧ q.hasNextPage = false := by
      have harith : i + (n + 1) = i + 1 + n := by omega
      rwa [harith] at hstop
    obtain ⟨recs, hrecs⟩ := ih (i + 1) (acc ++ p.edges) hbefore' hstop'
    refine ⟨recs, ?_⟩
    have hstep : fetchStep server (n + 1 + 1) i acc =
        fetchStep server (n + 1) (i + 1) (acc ++ p.edges) := by
      rw [fetchStep, hp]
      simp [hflag]
    rw [hstep, hrecs]
    congr 2
    omega

/-- Claim C4 (amended): the fetch loop terminates exactly through the
server has-more flag — when the flag first clears on the `n`-th response the
loop finishes with exactly `n + 1` requests — and the code has no hard cap:
against a server that never clears the flag the loop runs forever (the
counterexample theorem). -/
theorem C4_termination (server : Nat → Response) (n : Nat)
    (hbefore : ∀ j, j < n → ∃ p, server j = Response.page p ∧ p.hasNextPage = true)
    (hstop : ∃ p, server n = Response.page p ∧ p.hasNextPage = false) :
    ∃ recs, fetch_prs_with_cursor server (n + 1) = some (FetchOutcome.ok recs (n + 1)) := by
  have h := fetchStep_stops server n 0 []
    (by intro j hj; simpa using hbefore j hj) (by simpa using hstop)
  simpa [fetch_prs_with_cursor] using h

/-- Witness for C4: a two-page script whose flag clears on the second page
finishes after exactly two requests. -/
theorem C4_termination_witness :
    ∃ recs, fetch_prs_with_cursor (scriptServer [Response.page ⟨[5], true, none⟩,
      Response.page ⟨[], false, none⟩]) 2 = some (FetchOutcome.ok recs 2) :=
  C4_termination _ 1
    (by intro j hj; interval_cases j; exact ⟨⟨[5], true, none⟩, rfl, rfl⟩)
    ⟨⟨[], false, none⟩, rfl, rfl⟩

/- ## Orchestrator theorems -/

/-- Claim C1 (amended): a failure while processing one target is caught and
reported with the offending target identified, and the exit status is
non-zero iff at least one target fails — but the `sys.exit(1)` inside the
`except` block stops the batch at the first failing target, so the remaining
targets are not attempted: when the targets split as `pre ++ t :: post` with
`pre` succeeding and `t` failing, exactly `pre ++ [t]` is attempted, the one
report names `t`, and the exit status is 1; when every target succeeds the
exit status is 0. -/
theorem C1_orchestrator (run : Target → Except Str Unit) (ts : List Target) :
    ((orchestrate run ts).exitCode ≠ 0 ↔ ∃ t ∈ ts, ∃ e, run t = Except.error e) ∧
    (∀ pre t e post, ts = pre ++ t :: post → (∀ q ∈ pre, run q = Except.ok ()) →
      run t = Except.error e →
      orchestrate run ts = ⟨pre ++ [t], [(t, e)], 1⟩) ∧
    ((∀ t ∈ ts, run t = Except.ok ()) → orchestrate run ts = ⟨ts, [], 0⟩) := by
  refine ⟨?_, ?_, ?_⟩
  · induction ts with
    | nil => simp [orchestrate]
    | cons t ts ih =>
      cases h : run t with
      | ok v =>
        cases v
        simp only [orchestrate, h]
        rw [ih]
        constructor
        · rintro ⟨q, hq, e, he⟩
          exact ⟨q, List.mem_cons_of_mem t hq, e, he⟩
        · rintro ⟨q, hq, e, he⟩
          rcases List.mem_cons.mp hq with rfl | hq'
          · rw [h] at he; cases he
          · exact ⟨q, hq', e, he⟩
      | error e =>
        simp only [orchestrate, h]
        constructor
        · intro _
          exact ⟨t, List.mem_cons_self t ts, e, h⟩
        · intro _
          exact Nat.one_ne_zero
  · intro pre
    induction pre generalizing ts with
    | nil =>
      intro t e post hts _ herr
      subst hts
      simp [orchestrate, herr]
    | cons q pre ih =>
      intro t e post hts hok herr
      subst hts
      have hq : run q = Except.ok () := hok q (List.mem_cons_self q _)
      have hrest := ih (pre ++ t :: post) t e post rfl
        (fun q' hq' => hok q' (List.mem_cons_of_mem q hq')) herr
      simp [orchestrate, hq, hrest, List.append_eq]
  · induction ts with
    | nil => intro _; rfl
    | cons t ts ih =>
      intro hok
      have ht : run t = Except.ok () := hok t (List.mem_cons_self t ts)
      have hrest := ih (fun q hq => hok q (List.mem_cons_of_mem t hq))
      simp [orchestrate, ht, hrest]

/-- Claim C1 counterexample: with two targets of which the first fails, the
second target is never attempted — a failure on one target does prevent the
remaining targets from being attempted. -/
theorem C1_counterexample :
    (("b".toList, "o".toList, "r".toList) : Target) ∉
      (orchestrate (fun t => if t.1 = "a".toList then Except.error "E".toList else Except.ok ())
        [("a".toList, "o".toList, "r".toList), ("b".toList, "o".toList, "r".toList)]).attempted := by
  decide

/-- Witness for C1: a three-target batch whose second target fails attempts
exactly the first two targets, reports the second, and exits with status
1. -/
theorem C1_orchestrator_witness :
    orchestrate (fun t => if t.1 = "a".toList then Except.error "E".toList else Except.ok ())
      [("b".toList, "o".toList, "r".toList), ("a".toList, "o".toList, "r".toList),
       ("c".toList, "o".toList, "r".toList)] =
    ⟨[("b".toList, "o".toList, "r".toList), ("a".toList, "o".toList, "r".toList)],
     [(("a".toList, "o".toList, "r".toList), "E".toList)], 1⟩ :=
  (C1_orchestrator _ _).2.1 [("b".toList, "o".toList, "r".toList)]
    ("a".toList, "o".toList, "r".toList) "E".toList [("c".toList, "o".toList, "r".toList)]
    rfl (by decide) (by decide)

/- ## Target parser theorems -/

/-- Every error `parseOneTarget` raises identifies a target-format problem:
the count guard and the repo-split route raise "Invalid repository format",
and every other `ValueError` leaves the loop body wrapped in the
"Error parsing target ... Expected format" message. -/
theorem parseOneTarget_error_fmt (t : Str) (e : TargetError)
    (h : parseOneTarget t = Except.error e) : isTargetFormatError e = true := by
  unfold parseOneTarget at h
  by_cases hc : t.count '@' ≠ 1
  · rw [if_pos hc] at h
    cases h
    rfl
  · rw [if_neg hc] at h
    cases hi : parseOneTargetInner t with
    | ok v => rw [hi] at h; cases h
    | error e' =>
      rw [hi] at h
      cases e' <;> (cases h; rfl)

/-- A descriptor makes `parseOneTarget` fail exactly when it is malformed in
the specification's sense. -/
theorem parseOneTarget_error_iff (t : Str) :
    (∃ e, parseOneTarget t = Except.error e) ↔ isBadDescriptor t = true := by
  by_cases hc : t.count '@' ≠ 1
  · simp [parseOneTarget, isBadDescriptor, hc]
  · rcases hsplit : t.splitOn '@' with _ | ⟨u, _ | ⟨r, _ | ⟨x, xs⟩⟩⟩
    · simp [parseOneTarget, parseOneTargetInner, isBadDescriptor, hc, hsplit]
    · simp [parseOneTarget, parseOneTargetInner, isBadDescriptor, hc, hsplit]
    · by_cases hu1 : u = []
      · simp [parseOneTarget, parseOneTargetInner, isBadDescriptor, hc, hsplit,
          List.isEmpty_iff, hu1]
      · by_cases hu2 : r = []
        · simp [parseOneTarget, parseOneTargetInner, isBadDescriptor, hc, hsplit,
            List.isEmpty_iff, hu1, hu2]
        · rcases hrepo : r.splitOn '/' with _ | ⟨ro, _ | ⟨rn, _ | ⟨y, ys⟩⟩⟩
          · simp [parseOneTarget, parseOneTargetInner, isBadDescriptor, hc, hsplit,
              List.isEmpty_iff, hu1, hu2, hrepo]
          · simp [parseOneTarget, parseOneTargetInner, isBadDescriptor, hc, hsplit,
              List.isEmpty_iff, hu1, hu2, hrepo]
          · by_cases hr1 : ro = []
            · simp [parseOneTarget, parseOneTargetInner, isBadDescriptor, hc, hsplit,
                List.isEmpty_iff, hu1, hu2, hrepo, hr1]
            · by_cases hr2 : rn = []
              · simp [parseOneTarget, parseOneTargetInner, isBadDescriptor, hc, hsplit,
                  List.isEmpty_iff, hu1, hu2, hrepo, hr1, hr2]
              · simp [parseOneTarget, parseOneTargetInner, isBadDescriptor, hc, hsplit,
                  List.isEmpty_iff, hu1, hu2, hrepo, hr1, hr2]
          · simp [parseOneTarget, parseOneTargetInner, isBadDescriptor, hc, hsplit,
              List.isEmpty_iff, hu1, hu2, hrepo]
    · simp [parseOneTarget, parseOneTargetInner, isBadDescriptor, hc, hsplit]

/-- When some descriptor in the loop's list is malformed, the loop raises,
and the raised error is a target-format error. -/
theorem parseTargetsLoop_error (l : List Str) (t : Str) (ht : t ∈ l)
    (hbad : isBadDescriptor t = true) :
    ∃ e, parseTargetsLoop l = Except.error e ∧ isTargetFormatError e = true := by
  induction l with
  | nil => cases ht
  | cons q l ih =>
    cases hq : parseOneTarget q with
    | error e =>
      exact ⟨e, by simp [parseTargetsLoop, hq], parseOneTarget_error_fmt q e hq⟩
    | ok v =>
      rcases List.mem_cons.mp ht with rfl | ht'
      · obtain ⟨e, he⟩ := (parseOneTarget_error_iff t).mpr hbad
        rw [hq] at he
        cases he
      · obtain ⟨e, hl, hfmt⟩ := ih ht'
        exact ⟨e, by simp [parseTargetsLoop, hq, hl], hfmt⟩

/-- Claim C8 (confirmed): the parser fails with the empty-input error when the
trimmed input is empty, a descriptor fails exactly when its delimiter count is
not one, a side of the delimiter split is empty, the repo portion does not
split into exactly two segments on the slash, or a segment is empty — and
every such failure surfaces as a target-format error (never as a bare
tuple-unpack error and never as the empty-input error). -/
theorem C8_parse_targets :
    (∀ s : Str, pyStrip s = [] → parse_targets s = Except.error TargetError.emptyInput) ∧
    (∀ t : Str, (∃ e, parseOneTarget t = Except.error e) ↔ isBadDescriptor t = true) ∧
    (∀ t e, parseOneTarget t = Except.error e → isTargetFormatError e = true) ∧
    (∀ s t, t ∈ targetArr s → isBadDescriptor t = true → pyStrip s ≠ [] →
      ∃ e, parse_targets s = Except.error e ∧ isTargetFormatError e = true) := by
  refine ⟨?_, parseOneTarget_error_iff, parseOneTarget_error_fmt, ?_⟩
  · intro s hs
    unfold parse_targets
    rw [if_pos (Or.inr (List.isEmpty_iff.mpr hs))]
  · intro s t ht hbad hs
    have hcond : ¬ (s.isEmpty ∨ (pyStrip s).isEmpty) := by
      rintro (h | h)
      · exact hs (by rw [List.isEmpty_iff.mp h]; rfl)
      · exact hs (List.isEmpty_iff.mp h)
    unfold parse_targets
    rw [if_neg hcond]
    exact parseTargetsLoop_error (targetArr s) t ht hbad

/-- Witness for C8: the descriptor without a slash in its repo portion is
rejected with the "Invalid repository format" error, and the empty string is
rejected with the empty-input error. -/
theorem C8_parse_targets_witness :
    parse_targets "   ".toList = Except.error TargetError.emptyInput ∧
    ∃ e, parse_targets "peterxcli@apacheozone".toList = Except.error e ∧
      isTargetFormatError e = true :=
  ⟨C8_parse_targets.1 "   ".toList (by decide),
   C8_parse_targets.2.2.2 "peterxcli@apacheozone".toList "peterxcli@apacheozone".toList
     (by decide) (by decide) (by decide)⟩

/- ## Theme resolver theorems -/

/-- Claim C9 (confirmed): the scraper parses per theme block — a blank block
or one without a colon is skipped without aborting the batch (the sibling
blocks' results are unchanged), a line that is empty or contains `//` is
skipped and contributes no attribute, every extracted attribute value is
prefixed with `#`, and a theme missing recognized keys gets empty-string
defaults for the four color fields. -/
theorem C9_theme_scraper :
    (∀ pre post bad, parseThemeBlock bad = none →
      (pre ++ bad :: post).filterMap parseThemeBlock =
        (pre ++ post).filterMap parseThemeBlock) ∧
    (∀ b, pyStrip b = [] ∨ splitOnFirst ':' (pyStrip b) = none →
      parseThemeBlock b = none) ∧
    (∀ line, pyStrip line = [] ∨ hasSlashSlash (pyStrip line) = true →
      parseAttrLine line = none) ∧
    (∀ line k v, parseAttrLine line = some (k, v) → ∃ raw, v = '#' :: raw) ∧
    (∀ attrs, (pyDictGet attrs ("title_color".toList) = none →
        (themeFromAttrs attrs).title_color = []) ∧
      (pyDictGet attrs ("icon_color".toList) = none →
        (themeFromAttrs attrs).icon_color = []) ∧
      (pyDictGet attrs ("text_color".toList) = none →
        (themeFromAttrs attrs).text_color = []) ∧
      (pyDictGet attrs ("bg_color".toList) = none →
        (themeFromAttrs attrs).bg_color = [])) := by
  refine ⟨?_, ?_, ?_, ?_, ?_⟩
  · intro pre post bad h
    simp [List.filterMap_append, List.filterMap_cons, h]
  · intro b hb
    rcases hb with h | h
    · simp [parseThemeBlock, themeBlockAttrs, h]
    · by_cases he : (pyStrip b).isEmpty
      · simp [parseThemeBlock, themeBlockAttrs, he]
      · simp [parseThemeBlock, themeBlockAttrs, he, h]
  · intro line h
    rcases h with h | h <;>
      simp [parseAttrLine, h, List.isEmpty_iff]
  · intro line k v h
    unfold parseAttrLine at h
    by_cases hskip : (pyStrip line).isEmpty || hasSlashSlash (pyStrip line)
    · rw [if_pos hskip] at h
      cases h
    · rw [if_neg hskip] at h
      cases hsf : splitOnFirst ':' (pyStrip line) with
      | none => rw [hsf] at h; cases h
      | some kv =>
        rw [hsf] at h
        by_cases hv : hasSlashSlash
            (pyStripChars [dquote, squote, ','] (pyStrip kv.2)) = true
        · simp only [hv, if_true] at h
          injection h with h2
          injection h2 with hk hv2
          exact ⟨_, hv2.symm⟩
        · simp only [hv, if_false] at h
          injection h with h2
          injection h2 with hk hv2
          exact ⟨_, hv2.symm⟩
  · intro attrs
    refine ⟨?_, ?_, ?_, ?_⟩ <;> (intro h; simp at h; simp [themeFromAttrs, h])

/-- Witness for C9: a batch of a well-formed block followed by a colon-free
block parses to exactly the result of the well-formed block alone. -/
theorem C9_theme_scraper_witness :
    (["a: \x7b title_color: \"1\" ".toList, " garbage ".toList] : List Str).filterMap
        parseThemeBlock =
      (["a: \x7b title_color: \"1\" ".toList] : List Str).filterMap parseThemeBlock :=
  C9_theme_scraper.1 ["a: \x7b title_color: \"1\" ".toList] [] " garbage ".toList
    (C9_theme_scraper.2.1 " garbage ".toList (Or.inr (by decide)))

/-- Claim C10 (confirmed): every `Theme` produced by the remote-parse path has
`background_color` equal to `bg_color`; `border_color` is `None` — not the
empty string — when the block lacks a `border_color` key, while the title,
icon, text and bg color fields default to the empty string when their keys
are absent. -/
theorem C10_theme_fields (block : Str) (name : Str) (attrs : List (Str × Str))
    (h : themeBlockAttrs block = some (name, attrs)) :
    ∃ th, parseThemeBlock block = some (name, th) ∧
      th.background_color = th.bg_color ∧
      (pyDictGet attrs ("border_color".toList) = none → th.border_color = none) ∧
      (pyDictGet attrs ("title_color".toList) = none → th.title_color = []) ∧
      (pyDictGet attrs ("icon_color".toList) = none → th.icon_color = []) ∧
      (pyDictGet attrs ("text_color".toList) = none → th.text_color = []) ∧
      (pyDictGet attrs ("bg_color".toList) = none → th.bg_color = []) := by
  refine ⟨themeFromAttrs attrs, by simp [parseThemeBlock, h], rfl, ?_, ?_, ?_, ?_, ?_⟩ <;>
    (intro hnone; simp at hnone; simp [themeFromAttrs, hnone])

/-- Witness for C10: a block carrying only a title color yields a theme whose
background equals its bg color (both empty), whose border is `None`, and whose
icon and text colors default to the empty string. -/
theorem C10_theme_fields_witness :
    ∃ th, parseThemeBlock " dark: \x7b title_color: \"fff\" ".toList =
        some ("dark".toList, th) ∧ th.background_color = th.bg_color ∧
        th.border_color = none := by
  obtain ⟨th, hparse, hbg, hborder, _, _, _, _⟩ :=
    C10_theme_fields " dark: \x7b title_color: \"fff\" ".toList "dark".toList
      [("title_color".toList, "#fff".toList)] (by decide)
  exact ⟨th, hparse, hbg, hborder (by decide)⟩

/-- Claim C2 (code bug): after a successful remote fetch that parses at least
one theme, the cache write of src/themes.py line 117 calls the non-existent
method `_asdict` on a `Theme`, so `get_themes` raises an `AttributeError`
instead of persisting the resolved set and returning it — evaluated here on a
fetched text containing one theme definition. -/
theorem C2_cache_write_crash :
    get_themes_remote " default: \x7b \"title_color\": \"2f80ed\" ".toList =
      Except.error ("AttributeError: _asdict".toList) := by
  decide

/- ## Timestamp normalization theorems -/

/-- Digit characters decode to their value. -/
theorem digitVal_digitChar : ∀ d, d < 10 → digitVal? (Nat.digitChar d) = some d := by decide

/-- Non-digit characters decode to nothing. -/
theorem digitVal_none (c : Char) (hc : c.isDigit = false) : digitVal? c = none := by
  simp [digitVal?, hc]

/-- A digit at the front joins the digit run. -/
theorem splitDigits_cons_digit (c : Char) (d : Nat) (h : digitVal? c = some d) (rest : Str) :
    splitDigits (c :: rest) = (d :: (splitDigits rest).1, (splitDigits rest).2) := by
  simp [splitDigits, h]

/-- A non-digit at the front ends the digit run. -/
theorem splitDigits_cons_nondigit (c : Char) (hc : c.isDigit = false) (rest : Str) :
    splitDigits (c :: rest) = ([], c :: rest) := by
  simp [splitDigits, digitVal_none c hc]

/-- The empty string has an empty digit run. -/
theorem splitDigits_nil : splitDigits [] = ([], []) := rfl

/-- The digit run of a two-digit rendering followed by a non-digit. -/
theorem splitDigits_pad2 (n : Nat) (hn : n ≤ 99) (c : Char) (hc : c.isDigit = false)
    (rest : Str) :
    splitDigits (pad2digits n ++ c :: rest) = ([n / 10, n % 10], c :: rest) := by
  have h1 := digitVal_digitChar (n / 10) (by omega)
  have h2 := digitVal_digitChar (n % 10) (by omega)
  simp only [pad2digits, List.cons_append, List.nil_append,
    splitDigits_cons_digit _ _ h1, splitDigits_cons_digit _ _ h2,
    splitDigits_cons_nondigit c hc]

/-- The digit run of a two-digit rendering at the end of the string. -/
theorem splitDigits_pad2_nil (n : Nat) (hn : n ≤ 99) :
    splitDigits (pad2digits n) = ([n / 10, n % 10], []) := by
  have h1 := digitVal_digitChar (n / 10) (by omega)
  have h2 := digitVal_digitChar (n % 10) (by omega)
  simp only [pad2digits, splitDigits_cons_digit _ _ h1, splitDigits_cons_digit _ _ h2,
    splitDigits_nil]

/-- The digit run of a four-digit rendering followed by a non-digit. -/
theorem splitDigits_pad4 (y : Nat) (hy : y ≤ 9999) (c : Char) (hc : c.isDigit = false)
    (rest : Str) :
    splitDigits (pad4digits y ++ c :: rest) =
      ([y / 1000, y / 100 % 10, y / 10 % 10, y % 10], c :: rest) := by
  have h1 := digitVal_digitChar (y / 1000) (by omega)
  have h2 := digitVal_digitChar (y / 100 % 10) (by omega)
  have h3 := digitVal_digitChar (y / 10 % 10) (by omega)
  have h4 := digitVal_digitChar (y % 10) (by omega)
  simp only [pad4digits, List.cons_append, List.nil_append,
    splitDigits_cons_digit _ _ h1, splitDigits_cons_digit _ _ h2,
    splitDigits_cons_digit _ _ h3, splitDigits_cons_digit _ _ h4,
    splitDigits_cons_nondigit c hc]

/-- Value of a two-digit run. -/
theorem digitsVal_two (a b : Nat) : digitsVal [a, b] = 10 * a + b := by
  simp [digitsVal]

/-- Value of a four-digit run. -/
theorem digitsVal_four (a b c d : Nat) :
    digitsVal [a, b, c, d] = 10 * (10 * (10 * a + b) + c) + d := by
  simp [digitsVal]

/-- A one-or-two-digit field accepts a zero-padded in-range value followed by
a non-digit. -/
theorem parseNumField_pad2 (lo hi n : Nat) (hlo : lo ≤ n) (hhi : n ≤ hi) (hn : n ≤ 99)
    (c : Char) (hc : c.isDigit = false) (rest : Str) :
    parseNumField 1 2 lo hi (pad2digits n ++ c :: rest) = some (n, c :: rest) := by
  have hval : digitsVal [n / 10, n % 10] = n := by
    rw [digitsVal_two]; omega
  simp only [parseNumField, splitDigits_pad2 n hn c hc rest, hval, List.length_cons,
    List.length_nil]
  rw [if_pos]
  exact ⟨by omega, by omega, hlo, hhi⟩

/-- The four-digit year field accepts a zero-padded in-range value followed by
a non-digit. -/
theorem parseNumField_pad4 (lo hi y : Nat) (hlo : lo ≤ y) (hhi : y ≤ hi) (hy : y ≤ 9999)
    (c : Char) (hc : c.isDigit = false) (rest : Str) :
    parseNumField 4 4 lo hi (pad4digits y ++ c :: rest) = some (y, c :: rest) := by
  have hval : digitsVal [y / 1000, y / 100 % 10, y / 10 % 10, y % 10] = y := by
    rw [digitsVal_four]; omega
  simp only [parseNumField, splitDigits_pad4 y hy c hc rest, hval, List.length_cons,
    List.length_nil]
  rw [if_pos]
  exact ⟨by omega, by omega, hlo, hhi⟩

/-- A literal separator consumes itself. -/
theorem parseLitChar_self (c : Char) (rest : Str) : parseLitChar c (c :: rest) = some rest := by
  simp [parseLitChar]

/-- A case-insensitive literal consumes its first variant. -/
theorem parseLitCharCI_left (a b : Char) (rest : Str) :
    parseLitCharCI a b (a :: rest) = some rest := by
  simp [parseLitCharCI]

/-- Round trip of the shared date-time prefix: rendering in-range components
and parsing recovers them exactly, leaving the tail. -/
theorem parseDateCore_render (y mo d h mi s : Nat)
    (hy : y ≤ 9999) (hmo1 : 1 ≤ mo) (hmo2 : mo ≤ 12) (hd1 : 1 ≤ d) (hd2 : d ≤ 31)
    (hh : h ≤ 23) (hmi : mi ≤ 59) (hs : s ≤ 59)
    (c : Char) (hc : c.isDigit = false) (rest : Str) :
    parseDateCore (renderTimestampCore y mo d h mi s ++ c :: rest) =
      some (⟨y, mo, d, h, mi, s⟩, c :: rest) := by
  simp only [renderTimestampCore, List.append_assoc, List.cons_append]
  simp only [parseDateCore,
    parseNumField_pad4 0 9999 y (Nat.zero_le y) hy hy '-' (by decide),
    parseLitChar_self,
    parseNumField_pad2 1 12 mo hmo1 hmo2 (by omega) '-' (by decide),
    parseNumField_pad2 1 31 d hd1 hd2 (by omega) 'T' (by decide),
    parseLitCharCI_left,
    parseNumField_pad2 0 23 h (Nat.zero_le h) hh (by omega) ':' (by decide),
    parseNumField_pad2 0 59 mi (Nat.zero_le mi) hmi (by omega) ':' (by decide),
    parseNumField_pad2 0 61 s (Nat.zero_le s) (by omega) (by omega) c hc]

/-- No month is longer than 31 days. -/
theorem daysInMonth_le (y m : Nat) : daysInMonth y m ≤ 31 := by
  unfold daysInMonth
  split_ifs <;> omega

/-- The constructor checks hold for in-range components. -/
theorem datetimeValid_mk (y mo d h mi s : Nat) (hy : 1 ≤ y) (hs : s ≤ 59)
    (hd1 : 1 ≤ d) (hd2 : d ≤ daysInMonth y mo) :
    datetimeValid ⟨y, mo, d, h, mi, s⟩ = true := by
  simp [datetimeValid]
  exact ⟨hy, hs, hd1, hd2⟩

/-- The Z-format parse of a rendered Z-suffixed timestamp recovers its
components. -/
theorem strptimeZ_render (y mo d h mi s : Nat)
    (hy1 : 1 ≤ y) (hy : y ≤ 9999) (hmo1 : 1 ≤ mo) (hmo2 : mo ≤ 12)
    (hd1 : 1 ≤ d) (hd2 : d ≤ daysInMonth y mo) (hh : h ≤ 23) (hmi : mi ≤ 59) (hs : s ≤ 59) :
    strptimeZ (renderZ y mo d h mi s) = some ⟨y, mo, d, h, mi, s⟩ := by
  have hcore := parseDateCore_render y mo d h mi s hy hmo1 hmo2 hd1
    (hd2.trans (daysInMonth_le y mo)) hh hmi hs 'Z' (by decide) []
  have hvalid := datetimeValid_mk y mo d h mi s hy1 hs hd1 hd2
  simp only [strptimeZ, renderZ, hcore, parseLitCharCI_left, hvalid, if_true]

/-- A case-insensitive literal rejects any other character. -/
theorem parseLitCharCI_noMatch (a b x : Char) (h1 : x ≠ a) (h2 : x ≠ b) (rest : Str) :
    parseLitCharCI a b (x :: rest) = none := by
  simp [parseLitCharCI, h1, h2]

/-- The Z-format parse rejects a rendered negative-offset timestamp: after
the seconds field it expects the letter Z but finds the minus sign. -/
theorem strptimeZ_render_minus (y mo d h mi s oh om : Nat)
    (hy : y ≤ 9999) (hmo1 : 1 ≤ mo) (hmo2 : mo ≤ 12)
    (hd1 : 1 ≤ d) (hd2 : d ≤ 31) (hh : h ≤ 23) (hmi : mi ≤ 59) (hs : s ≤ 59) :
    strptimeZ (renderOffset y mo d h mi s '-' oh om) = none := by
  have hcore := parseDateCore_render y mo d h mi s hy hmo1 hmo2 hd1 hd2 hh hmi hs
    '-' (by decide) (pad2digits oh ++ ':' :: pad2digits om)
  simp only [strptimeZ, renderOffset, hcore,
    parseLitCharCI_noMatch 'Z' 'z' '-' (by decide) (by decide)]

/-- The offset field accepts a zero-padded `HH:MM` offset. -/
theorem parseOffsetSeconds_hhmm (oh om : Nat) (hoh : oh ≤ 99) (hom : om ≤ 59) :
    parseOffsetSeconds (pad2digits oh ++ ':' :: pad2digits om) =
      some (oh * 3600 + om * 60) := by
  simp only [parseOffsetSeconds, splitDigits_pad2 oh hoh ':' (by decide),
    splitDigits_pad2_nil om (by omega)]
  rw [if_pos (by omega)]
  have harith : (10 * (oh / 10) + oh % 10) * 3600 + (10 * (om / 10) + om % 10) * 60 =
      oh * 3600 + om * 60 := by omega
  rw [harith]

/-- The offset-format parse of a rendered plus-offset timestamp recovers its
components (the offset is below 24 hours, so the constructor accepts it). -/
theorem strptimePlus_render (y mo d h mi s oh om : Nat)
    (hy1 : 1 ≤ y) (hy : y ≤ 9999) (hmo1 : 1 ≤ mo) (hmo2 : mo ≤ 12)
    (hd1 : 1 ≤ d) (hd2 : d ≤ daysInMonth y mo) (hh : h ≤ 23) (hmi : mi ≤ 59) (hs : s ≤ 59)
    (hoh : oh ≤ 23) (hom : om ≤ 59) :
    strptimePlus (renderOffset y mo d h mi s '+' oh om) = some ⟨y, mo, d, h, mi, s⟩ := by
  have hcore := parseDateCore_render y mo d h mi s hy hmo1 hmo2 hd1
    (hd2.trans (daysInMonth_le y mo)) hh hmi hs '+' (by decide)
    (pad2digits oh ++ ':' :: pad2digits om)
  have hvalid := datetimeValid_mk y mo d h mi s hy1 hs hd1 hd2
  have hoff := parseOffsetSeconds_hhmm oh om (by omega) hom
  have hlt : oh * 3600 + om * 60 < 86400 := by omega
  simp only [pad2digits, List.cons_append, List.nil_append] at hcore hoff
  simp only [strptimePlus, renderOffset, pad2digits, List.cons_append, List.nil_append]
  simp [hcore, hvalid, hoff, hlt]

/-- Digit characters satisfy the digit test. -/
theorem digitChar_isDigit : ∀ d, d < 10 → (Nat.digitChar d).isDigit = true := by decide

/-- Characters of a two-digit rendering are digits. -/
theorem mem_pad2_isDigit (n : Nat) (hn : n ≤ 99) (c : Char) (hc : c ∈ pad2digits n) :
    c.isDigit = true := by
  simp only [pad2digits, List.mem_cons, List.not_mem_nil, or_false] at hc
  rcases hc with rfl | rfl
  · exact digitChar_isDigit _ (by omega)
  · exact digitChar_isDigit _ (by omega)

/-- Characters of a four-digit rendering are digits. -/
theorem mem_pad4_isDigit (n : Nat) (hn : n ≤ 9999) (c : Char) (hc : c ∈ pad4digits n) :
    c.isDigit = true := by
  simp only [pad4digits, List.mem_cons, List.not_mem_nil, or_false] at hc
  rcases hc with rfl | rfl | rfl | rfl <;> exact digitChar_isDigit _ (by omega)

/-- Every character of the rendered date-time prefix is a digit or one of the
three separators. -/
theorem mem_core_cases (c : Char) (y mo d h mi s : Nat)
    (hy : y ≤ 9999) (hmo : mo ≤ 99) (hd : d ≤ 99) (hh : h ≤ 99) (hmi : mi ≤ 99)
    (hs : s ≤ 99) (hc : c ∈ renderTimestampCore y mo d h mi s) :
    c.isDigit = true ∨ c = '-' ∨ c = 'T' ∨ c = ':' := by
  simp only [renderTimestampCore, List.mem_append, List.mem_cons] at hc
  casesm* _ ∨ _
  all_goals first
    | exact Or.inl (mem_pad4_isDigit _ hy _ (by assumption))
    | exact Or.inl (mem_pad2_isDigit _ hmo _ (by assumption))
    | exact Or.inl (mem_pad2_isDigit _ hd _ (by assumption))
    | exact Or.inl (mem_pad2_isDigit _ hh _ (by assumption))
    | exact Or.inl (mem_pad2_isDigit _ hmi _ (by assumption))
    | exact Or.inl (mem_pad2_isDigit _ hs _ (by assumption))
    | tauto

/-- A rendered Z-suffixed timestamp contains no plus sign, so
`get_month_year` parses it with the Z format. -/
theorem plus_not_mem_renderZ (y mo d h mi s : Nat)
    (hy : y ≤ 9999) (hmo : mo ≤ 99) (hd : d ≤ 99) (hh : h ≤ 99) (hmi : mi ≤ 99)
    (hs : s ≤ 99) : '+' ∉ renderZ y mo d h mi s := by
  intro hmem
  simp only [renderZ, List.mem_append, List.mem_singleton] at hmem
  rcases hmem with hmem | hmem
  · rcases mem_core_cases '+' y mo d h mi s hy hmo hd hh hmi hs hmem with
      hdig | he | he | he
    · exact absurd hdig (by decide)
    all_goals exact absurd he (by decide)
  · exact absurd hmem (by decide)

/-- A rendered plus-offset timestamp contains a plus sign, so
`get_month_year` parses it with the offset format. -/
theorem plus_mem_renderOffset_plus (y mo d h mi s oh om : Nat) :
    '+' ∈ renderOffset y mo d h mi s '+' oh om := by
  simp [renderOffset]

/-- A rendered negative-offset timestamp contains no plus sign, so
`get_month_year` parses it with the Z format — the source of the failure. -/
theorem plus_not_mem_renderOffset_minus (y mo d h mi s oh om : Nat)
    (hy : y ≤ 9999) (hmo : mo ≤ 99) (hd : d ≤ 99) (hh : h ≤ 99) (hmi : mi ≤ 99)
    (hs : s ≤ 99) (hoh : oh ≤ 99) (hom : om ≤ 99) :
    '+' ∉ renderOffset y mo d h mi s '-' oh om := by
  intro hmem
  simp only [renderOffset, List.mem_append, List.mem_cons] at hmem
  rcases hmem with hmem | hmem | hmem
  · rcases mem_core_cases '+' y mo d h mi s hy hmo hd hh hmi hs hmem with
      hdig | he | he | he
    · exact absurd hdig (by decide)
    all_goals exact absurd he (by decide)
  · exact absurd hmem (by decide)
  · rcases hmem with hmem | hmem
    · exact absurd (mem_pad2_isDigit _ hoh _ hmem) (by decide)
    · rcases hmem with hmem | hmem
      · exact absurd hmem (by decide)
      · exact absurd (mem_pad2_isDigit _ hom _ hmem) (by decide)

/-- Unfolding step of the decimal rendering for numbers of two or more
digits. -/
theorem natDecimalDigits_of_ge10 (n : Nat) (h10 : 10 ≤ n) :
    natDecimalDigits n = natDecimalDigits (n / 10) ++ [Nat.digitChar (n % 10)] := by
  rw [natDecimalDigits]
  rw [dif_neg (by omega)]

/-- Decimal rendering of a single digit. -/
theorem natDecimalDigits_lt10 (n : Nat) (h : n < 10) :
    natDecimalDigits n = [Nat.digitChar n] := by
  rw [natDecimalDigits]
  rw [dif_pos h]

/-- For four-digit years the unpadded `strftime` year equals the four-digit
rendering. -/
theorem natDecimalDigits_pad4 (y : Nat) (h1 : 1000 ≤ y) (h2 : y ≤ 9999) :
    natDecimalDigits y = pad4digits y := by
  rw [natDecimalDigits_of_ge10 y (by omega), natDecimalDigits_of_ge10 (y / 10) (by omega),
    natDecimalDigits_of_ge10 (y / 10 / 10) (by omega),
    natDecimalDigits_lt10 (y / 10 / 10 / 10) (by omega)]
  have e1 : y / 10 / 10 / 10 = y / 1000 := by omega
  have e2 : y / 10 / 10 % 10 = y / 100 % 10 := by omega
  rw [e1, e2]
  simp [pad4digits]

/-- Claim C5 counterexample: the offset-suffixed ISO timestamp
`2024-03-05T10:00:00-05:00` — a well-formed `YYYY-MM-DDTHH:MM:SS±HH:MM`
string with a negative offset — raises a parse error instead of mapping to
its `2024-03` month key, because the offset format is selected only when the
string contains a plus sign. -/
theorem C5_counterexample :
    get_month_year "2024-03-05T10:00:00-05:00".toList = none := by decide

/-- Claim C5 (amended): timestamp normalization maps every well-formed
plus-offset timestamp `YYYY-MM-DDTHH:MM:SS+HH:MM` and every well-formed
Z-suffixed timestamp `YYYY-MM-DDTHH:MM:SSZ` (in-range fields, a day that
exists in the month, a four-digit year of at least 1000, an offset below 24
hours) to its `YYYY-MM` month key — but an offset-suffixed string with a
negative offset contains no plus sign, is routed to the Z format, and fails
with a timestamp parse error. -/
theorem C5_get_month_year (y mo d h mi s oh om : Nat)
    (hy1 : 1000 ≤ y) (hy2 : y ≤ 9999) (hmo1 : 1 ≤ mo) (hmo2 : mo ≤ 12)
    (hd1 : 1 ≤ d) (hd2 : d ≤ daysInMonth y mo) (hh : h ≤ 23) (hmi : mi ≤ 59) (hs : s ≤ 59)
    (hoh : oh ≤ 23) (hom : om ≤ 59) :
    get_month_year (renderZ y mo d h mi s) = some (pad4digits y ++ '-' :: pad2digits mo) ∧
    get_month_year (renderOffset y mo d h mi s '+' oh om) =
      some (pad4digits y ++ '-' :: pad2digits mo) ∧
    get_month_year (renderOffset y mo d h mi s '-' oh om) = none := by
  have hd31 : d ≤ 31 := hd2.trans (daysInMonth_le y mo)
  have hym : pyStrftimeYm ⟨y, mo, d, h, mi, s⟩ = pad4digits y ++ '-' :: pad2digits mo := by
    simp [pyStrftimeYm, natDecimalDigits_pad4 y hy1 hy2]
  refine ⟨?_, ?_, ?_⟩
  · simp only [get_month_year]
    rw [if_neg (plus_not_mem_renderZ y mo d h mi s (by omega) (by omega) (by omega)
      (by omega) (by omega) (by omega))]
    rw [strptimeZ_render y mo d h mi s (by omega) hy2 hmo1 hmo2 hd1 hd2 hh hmi hs]
    simp [hym]
  · simp only [get_month_year]
    rw [if_pos (plus_mem_renderOffset_plus y mo d h mi s oh om)]
    rw [strptimePlus_render y mo d h mi s oh om (by omega) hy2 hmo1 hmo2 hd1 hd2
      hh hmi hs hoh hom]
    simp [hym]
  · simp only [get_month_year]
    rw [if_neg (plus_not_mem_renderOffset_minus y mo d h mi s oh om (by omega) (by omega)
      (by omega) (by omega) (by omega) (by omega) (by omega) (by omega))]
    rw [strptimeZ_render_minus y mo d h mi s oh om hy2 hmo1 hmo2 hd1 hd31 hh hmi hs]
    rfl

/-- Witness for C5: the timestamp components of 2024-03-05 10:00:00 with
offset 05:30 take all three branches as stated. -/
theorem C5_get_month_year_witness :
    get_month_year (renderZ 2024 3 5 10 0 0) =
      some (pad4digits 2024 ++ '-' :: pad2digits 3) ∧
    get_month_year (renderOffset 2024 3 5 10 0 0 '+' 5 30) =
      some (pad4digits 2024 ++ '-' :: pad2digits 3) ∧
    get_month_year (renderOffset 2024 3 5 10 0 0 '-' 5 30) = none :=
  C5_get_month_year 2024 3 5 10 0 0 5 30 (by omega) (by omega) (by omega) (by omega)
    (by omega) (by decide) (by omega) (by omega) (by omega) (by omega) (by omega)
